import Mathlib

/-!
Verification of the client-side simulation loop and authoritative mutations of
a browser multiplayer FPS. The definitions below are a shallow embedding of:

* `GameEngine.updatePlayer` (src/src/game/GameEngine.ts, lines 433-497):
  per-tick kinematics of the local player (crouch-height lerp, movement
  intent, friction, jump, gravity, integration, ground clamp, arena clamp,
  throttled outbound position report);
* `GameEngine.updateBullets` (lines 499-543): per-tick projectile advance,
  age/out-of-bounds expiry, and distance-based collision against remote
  player meshes;
* `GameEngine.updateGameState` (lines 545-631): reconciliation of an
  authoritative snapshot into the local scene (remote player visual handles
  and authoritative projectile seeding);
* the Convex mutation `hitPlayer` (src/convex/schema.ts via game.ts,
  lines 198-242): authoritative hit validation, damage, kill bookkeeping.

Numbers are modelled as rationals.  JS `Map`s keyed by id strings are
modelled as association lists in insertion order; `Map` key uniqueness is
captured where needed by counting entries per key.
-/

namespace FpsGame

/-- Three-component vector, mirroring `THREE.Vector3` as used by the engine. -/
structure Vec3 where
  x : ℚ
  y : ℚ
  z : ℚ
deriving DecidableEq

/-- Pitch/yaw pair, mirroring `player.rotation = { x, y }` in the source. -/
structure Rot2 where
  x : ℚ
  y : ℚ
deriving DecidableEq

/-- Local player kinematic state, mirroring the `player` record of
`GameEngine` (position, velocity, rotation, isGrounded, isSprinting,
isCrouching, height). -/
structure PlayerState where
  position : Vec3
  velocity : Vec3
  rotation : Rot2
  isGrounded : Bool
  isSprinting : Bool
  isCrouching : Bool
  height : ℚ
deriving DecidableEq

/-- Movement-intent booleans, mirroring the `controls` record. -/
structure Controls where
  forward : Bool
  backward : Bool
  left : Bool
  right : Bool
  jump : Bool
  sprint : Bool
  crouch : Bool
deriving DecidableEq

/-- Outbound position report payload of `callbacks.onPositionUpdate`. -/
structure PosReport where
  position : Vec3
  rotation : Rot2
deriving DecidableEq

/-- Result of one `updatePlayer` tick: the new player state, the new report
throttle timestamp `lastUpdateTime`, and the report sent (if any). -/
structure TickResult where
  player : PlayerState
  lastUpdateTime : ℚ
  report : Option PosReport
deriving DecidableEq

/-- `THREE.MathUtils.lerp x y t = x + (y - x) * t`. -/
def lerp (x y t : ℚ) : ℚ := x + (y - x) * t

/-- Crouch handling (`updatePlayer` step 1): target height 1.2 when crouch is
held, else 1.8; current height moves by `lerp` with factor `deltaTime * 10`. -/
def stepHeight (c : Controls) (dt : ℚ) (p : PlayerState) : PlayerState :=
  { p with height := lerp p.height (if c.crouch then 6/5 else 9/5) (dt * 10) }

/-- Raw input-space direction built from the four directional booleans:
forward adds (0,-1), backward (0,1), left (-1,0), right (1,0); returned as
the (x, z) pair of the `direction` vector before normalisation. -/
def rawDir (c : Controls) : ℚ × ℚ :=
  ((if c.left then -1 else 0) + (if c.right then 1 else 0),
   (if c.forward then -1 else 0) + (if c.backward then 1 else 0))

/-- Movement (`updatePlayer` step 2).  The source tests
`direction.length() > 0`, which for the integer-component raw direction is
equivalent to one of the two components being nonzero.  In that branch the
source computes `direction.normalize().applyAxisAngle((0,1,0), rotation.y)`,
a yaw-rotated unit vector whose components are irrational in general; that
vector enters the model as the parameter `worldDir`, consulted exactly when
the raw direction is nonzero.  Horizontal velocity is set to
`worldDir * moveSpeed` (8 sprinting, 5 otherwise); with no directional input
both horizontal components decay by the per-tick factor 0.8. -/
def stepMove (c : Controls) (worldDir : ℚ × ℚ) (p : PlayerState) : PlayerState :=
  if (rawDir c).1 ≠ 0 ∨ (rawDir c).2 ≠ 0 then
    { p with velocity :=
        { p.velocity with
          x := worldDir.1 * (if c.sprint then 8 else 5),
          z := worldDir.2 * (if c.sprint then 8 else 5) } }
  else
    { p with velocity :=
        { p.velocity with
          x := p.velocity.x * (4/5),
          z := p.velocity.z * (4/5) } }

/-- Jump (`updatePlayer` step 3): if jump is held and the player is grounded,
vertical velocity is set to 8 and the grounded flag cleared. -/
def stepJump (c : Controls) (p : PlayerState) : PlayerState :=
  if c.jump && p.isGrounded then
    { p with velocity := { p.velocity with y := 8 }, isGrounded := false }
  else p

/-- Gravity (`updatePlayer` step 4): while not grounded, vertical velocity
decreases by `25 * deltaTime`. -/
def stepGravity (dt : ℚ) (p : PlayerState) : PlayerState :=
  if p.isGrounded then p
  else { p with velocity := { p.velocity with y := p.velocity.y - 25 * dt } }

/-- Position integration (`updatePlayer` step 5):
`position += velocity * deltaTime` on all three axes. -/
def stepIntegrate (dt : ℚ) (p : PlayerState) : PlayerState :=
  { p with position :=
      { x := p.position.x + p.velocity.x * dt,
        y := p.position.y + p.velocity.y * dt,
        z := p.position.z + p.velocity.z * dt } }

/-- Ground collision (`updatePlayer` step 6): if the vertical position is at
most half the current height, snap to that floor, zero the vertical velocity
and set the grounded flag. -/
def stepGround (p : PlayerState) : PlayerState :=
  if p.position.y ≤ p.height / 2 then
    { p with position := { p.position with y := p.height / 2 },
             velocity := { p.velocity with y := 0 },
             isGrounded := true }
  else p

/-- Boundary collision (`updatePlayer` step 7): both horizontal coordinates
clamped to `[-49, 49]` via `Math.max(-49, Math.min(49, _))`. -/
def stepArena (p : PlayerState) : PlayerState :=
  { p with position :=
      { p.position with
        x := max (-49) (min 49 p.position.x),
        z := max (-49) (min 49 p.position.z) } }

/-- The state after crouch, movement, jump, gravity and position integration,
before the ground and arena clamps. -/
def integratedState (c : Controls) (worldDir : ℚ × ℚ) (dt : ℚ)
    (p : PlayerState) : PlayerState :=
  stepIntegrate dt (stepGravity dt (stepJump c (stepMove c worldDir (stepHeight c dt p))))

/-- One tick of `GameEngine.updatePlayer`.  `dt` is the elapsed time in
seconds handed over unmodified by `animate` from `clock.getDelta()`; `now`
is the wall clock (`Date.now()`, milliseconds) and `lastUpdateTime` the
throttle timestamp.  A position report with the post-tick position and
pitch/yaw is emitted exactly when `now - lastUpdateTime > 50`, in which case
the throttle timestamp becomes `now`. -/
def updatePlayer (p : PlayerState) (c : Controls) (worldDir : ℚ × ℚ)
    (dt now lastUpdateTime : ℚ) : TickResult :=
  let p1 := stepArena (stepGround (integratedState c worldDir dt p))
  if now - lastUpdateTime > 50 then
    { player := p1, lastUpdateTime := now,
      report := some { position := p1.position, rotation := p1.rotation } }
  else
    { player := p1, lastUpdateTime := lastUpdateTime, report := none }

/-- Inputs of one tick when running a sequence of ticks. -/
structure TickInput where
  controls : Controls
  worldDir : ℚ × ℚ
  dt : ℚ
  now : ℚ

/-- Run a sequence of `updatePlayer` ticks, threading the player state and
the report-throttle timestamp. -/
def runTicks : List TickInput → PlayerState × ℚ → PlayerState × ℚ
  | [], s => s
  | i :: rest, s =>
    runTicks rest
      ((updatePlayer s.1 i.controls i.worldDir i.dt i.now s.2).player,
       (updatePlayer s.1 i.controls i.worldDir i.dt i.now s.2).lastUpdateTime)

/-- Horizontal position within the clamped arena `[-49, 49] × [-49, 49]`. -/
def inArena (p : PlayerState) : Prop :=
  -49 ≤ p.position.x ∧ p.position.x ≤ 49 ∧ -49 ≤ p.position.z ∧ p.position.z ≤ 49

instance (p : PlayerState) : Decidable (inArena p) := by
  unfold inArena; infer_instance

/-- All movement intents off. -/
def noCtrl : Controls :=
  { forward := false, backward := false, left := false, right := false,
    jump := false, sprint := false, crouch := false }

/-- Jump intent only. -/
def jumpCtrl : Controls := { noCtrl with jump := true }

/-- Crouch intent only. -/
def crouchCtrl : Controls := { noCtrl with crouch := true }

/-- Standing rest state: on the ground at the spawn column, standing height
1.8, no velocity. -/
def standState : PlayerState :=
  { position := { x := 0, y := 9/10, z := 0 },
    velocity := { x := 0, y := 0, z := 0 },
    rotation := { x := 0, y := 0 },
    isGrounded := true, isSprinting := false, isCrouching := false,
    height := 9/5 }

/-- The end-to-end scenario start state: at (0, 0.9, 0) with height 1.8 and
velocity (0, -1, 0), in ground contact. -/
def c8State : PlayerState :=
  { standState with velocity := { x := 0, y := -1, z := 0 } }

/-- A locally simulated projectile, mirroring an entry of the `bullets` map:
mesh position, velocity vector, and the creation timestamp `startTime`
(milliseconds; for authoritative projectiles this is the authority's
`timestamp`). -/
structure Bullet where
  pos : Vec3
  velocity : Vec3
  startTime : ℚ
deriving DecidableEq

/-- First value stored under key `k` in an association list, mirroring
`Map.get` (JS `Map` keys are unique, so the first entry is the entry). -/
def findVal {β : Type} (k : String) : List (String × β) → Option β
  | [] => none
  | e :: rest => if e.1 = k then some e.2 else findVal k rest

/-- Number of entries stored under key `k`; a faithful image of a JS `Map`
has at most one. -/
def countKey {β : Type} (k : String) : List (String × β) → ℕ
  | [] => 0
  | e :: rest => (if e.1 = k then 1 else 0) + countKey k rest

/-- Squared Euclidean distance.  `Vector3.distanceTo` is the square root of
this, and the source's test `distanceTo < 0.5` on nonnegative distances is
equivalent to `dist2 < 1/4`. -/
def dist2 (a b : Vec3) : ℚ :=
  (a.x - b.x) ^ 2 + (a.y - b.y) ^ 2 + (a.z - b.z) ^ 2

/-- Per-tick projectile advance:
`bullet.mesh.position += bullet.velocity * deltaTime`. -/
def moveBullet (dt : ℚ) (b : Bullet) : Bullet :=
  { b with pos :=
      { x := b.pos.x + b.velocity.x * dt,
        y := b.pos.y + b.velocity.y * dt,
        z := b.pos.z + b.velocity.z * dt } }

/-- Age expiry test of `updateBullets`: `Date.now() - bullet.startTime > 5000`. -/
def bulletExpired (now : ℚ) (b : Bullet) : Bool :=
  decide (now - b.startTime > 5000)

/-- Out-of-bounds test of `updateBullets`: `|x| > 50` or `|z| > 50` or
`y < 0` or `y > 10`. -/
def bulletOOB (b : Bullet) : Bool :=
  decide (|b.pos.x| > 50) || decide (|b.pos.z| > 50) ||
  decide (b.pos.y < 0) || decide (b.pos.y > 10)

/-- Collision pass of `updateBullets` for one projectile: the hit events
`(bulletId, playerId)` emitted while iterating over every remote player
mesh.  The loop body skips only `playerId === currentPlayerId` and fires
`onHit` for every player within the 0.5-unit threshold; it does not stop at
the first match. -/
def bulletHits (cpid : String) (players : List (String × Vec3))
    (bid : String) (b : Bullet) : List (String × String) :=
  players.filterMap fun q =>
    if q.1 = cpid then none
    else if dist2 b.pos q.2 < 1/4 then some (bid, q.1) else none

/-- One tick of `GameEngine.updateBullets`.  Every projectile is advanced by
`velocity * deltaTime`; it is marked for removal when its age exceeds
5000 ms, when it leaves the arena bounds, or when it collides with some
remote player mesh (each collision also emits a hit event).  Marked
projectiles are deleted after the loop; `players` is the remote-player mesh
map (id, mesh position) and `cpid` the current player id.  Returns the
surviving projectile map and the hit events in emission order. -/
def updateBullets (now dt : ℚ) (cpid : String)
    (players : List (String × Vec3)) (bullets : List (String × Bullet)) :
    List (String × Bullet) × List (String × String) :=
  let stepped := bullets.map fun e => (e.1, moveBullet dt e.2)
  (stepped.filter fun e =>
      !(bulletExpired now e.2 || bulletOOB e.2 ||
        !(bulletHits cpid players e.1 e.2).isEmpty),
   (stepped.map fun e => bulletHits cpid players e.1 e.2).flatten)

/-- Visual handle of a remote player: capsule mesh position, name-tag sprite
position, the alive/dead material colour state, and the username drawn on
the name tag at creation (never redrawn afterwards). -/
structure RemoteView where
  meshPos : Vec3
  nameTagPos : Vec3
  aliveColor : Bool
  username : String
deriving DecidableEq

/-- One player entry of an authoritative game-state snapshot. -/
structure SnapPlayer where
  pid : String
  username : String
  position : Vec3
  isAlive : Bool
deriving DecidableEq

/-- One bullet entry of an authoritative game-state snapshot. -/
structure SnapBullet where
  bid : String
  startPosition : Vec3
  direction : Vec3
  speed : ℚ
  timestamp : ℚ
deriving DecidableEq

/-- An authoritative game-state snapshot as consumed by `updateGameState`. -/
structure Snapshot where
  players : List SnapPlayer
  bullets : List SnapBullet
deriving DecidableEq

/-- Scene state owned by the engine: the local player's predicted state, the
remote-player visual handle map, and the local projectile map. -/
structure EngineState where
  player : PlayerState
  players : List (String × RemoteView)
  bullets : List (String × Bullet)
deriving DecidableEq

/-- Freshly created visual handle (mesh plus name tag labelled with the
snapshot username, material colour from `isAlive`); positions are set right
after creation by the common update path. -/
def mkView (sp : SnapPlayer) : RemoteView :=
  { meshPos := { x := 0, y := 0, z := 0 },
    nameTagPos := { x := 0, y := 0, z := 0 },
    aliveColor := sp.isAlive,
    username := sp.username }

/-- Common update path run for every listed remote player: mesh position set
to the snapshot position, name tag floated 1.5 units above it, material
colour set from `isAlive`; the name-tag text (username) is not redrawn. -/
def refreshView (v : RemoteView) (sp : SnapPlayer) : RemoteView :=
  { v with meshPos := sp.position,
           nameTagPos := { x := sp.position.x, y := sp.position.y + 3/2,
                           z := sp.position.z },
           aliveColor := sp.isAlive }

/-- Processing of one snapshot player entry: entries for the current player
id are skipped; otherwise a handle is created when none exists for the id,
and the handle is then refreshed with the snapshot data. -/
def applySnapPlayer (cpid : String) (m : List (String × RemoteView))
    (sp : SnapPlayer) : List (String × RemoteView) :=
  if sp.pid = cpid then m
  else
    (if (findVal sp.pid m).isSome then m else m ++ [(sp.pid, mkView sp)]).map
      fun e => if e.1 = sp.pid then (e.1, refreshView e.2 sp) else e

/-- Disconnect pass of `updateGameState`: every handle whose id does not
occur among the snapshot players is removed from the scene and the map. -/
def pruneDisconnected (snap : Snapshot) (m : List (String × RemoteView)) :
    List (String × RemoteView) :=
  m.filter fun e => snap.players.any fun sp => sp.pid == e.1

/-- Processing of one snapshot bullet entry: a bullet id not yet known
locally is instantiated at the authority's start position with velocity
`direction * speed` and `startTime` equal to the authority's timestamp;
bullets already known locally are never mutated from snapshot data. -/
def applySnapBullet (m : List (String × Bullet)) (sb : SnapBullet) :
    List (String × Bullet) :=
  if (findVal sb.bid m).isSome then m
  else m ++ [(sb.bid,
    { pos := sb.startPosition,
      velocity := { x := sb.direction.x * sb.speed,
                    y := sb.direction.y * sb.speed,
                    z := sb.direction.z * sb.speed },
      startTime := sb.timestamp })]

/-- `GameEngine.updateGameState`: a null snapshot is ignored; otherwise the
remote-player handles are created/updated from the snapshot list, handles of
absent ids are removed, and unknown authoritative bullets are seeded.  The
local player's own predicted state is not touched. -/
def updateGameState (cpid : String) (snap : Option Snapshot)
    (st : EngineState) : EngineState :=
  match snap with
  | none => st
  | some gs =>
    { player := st.player,
      players := pruneDisconnected gs
        (gs.players.foldl (applySnapPlayer cpid) st.players),
      bullets := gs.bullets.foldl applySnapBullet st.bullets }

/-- A row of the authority's `players` table (convex schema). -/
structure PlayerRow where
  gameId : String
  username : String
  position : Vec3
  rotation : Rot2
  health : ℚ
  maxHealth : ℚ
  kills : ℚ
  deaths : ℚ
  isAlive : Bool
  lastUpdate : ℚ
deriving DecidableEq

/-- A row of the authority's `bullets` table; `playerId` is the shooter. -/
structure BulletRow where
  gameId : String
  playerId : String
  startPosition : Vec3
  direction : Vec3
  speed : ℚ
  damage : ℚ
  timestamp : ℚ
deriving DecidableEq

/-- A row of the authority's `kills` table. -/
structure KillRow where
  gameId : String
  killerId : String
  victimId : String
  killerName : String
  victimName : String
  weapon : String
  timestamp : ℚ
deriving DecidableEq

/-- The authoritative datastore state touched by `hitPlayer`. -/
structure DB where
  players : List (String × PlayerRow)
  bullets : List (String × BulletRow)
  kills : List KillRow
deriving DecidableEq

/-- Return value of a successful `hitPlayer` call. -/
structure HitResult where
  hit : Bool
  damage : ℚ
  killed : Bool
deriving DecidableEq

/-- `ctx.db.patch(id, fields)`: update the row stored under `id`, leaving
other fields and other rows unchanged. -/
def patchRow {β : Type} (k : String) (f : β → β) (m : List (String × β)) :
    List (String × β) :=
  m.map fun e => if e.1 = k then (e.1, f e.2) else e

/-- `ctx.db.delete(id)`: remove the row stored under `id`. -/
def deleteRow {β : Type} (k : String) (m : List (String × β)) :
    List (String × β) :=
  m.filter fun e => !(e.1 == k)

/-- The validity guard of `hitPlayer`:
`!bullet || !victim || !shooter || !victim.isAlive` leads to `null`. -/
def hitValid (db : DB) (bulletId victimId : String) : Bool :=
  match findVal bulletId db.bullets with
  | none => false
  | some bullet =>
    match findVal victimId db.players, findVal bullet.playerId db.players with
    | some victim, some _ => victim.isAlive
    | _, _ => false

/-- Body of `hitPlayer` past the validity guard: compute
`newHealth = max(0, victim.health - bullet.damage)`, patch the victim
(health, aliveness, deaths), on a kill patch the shooter's kill count and
insert a kill row, delete the bullet, and return
`{ hit: true, damage, killed }`. -/
def applyHit (db : DB) (now : ℚ) (bulletId victimId : String)
    (bullet : BulletRow) (victim shooter : PlayerRow) :
    Option HitResult × DB :=
  let newHealth := max 0 (victim.health - bullet.damage)
  let isDead := decide (newHealth ≤ 0)
  let players1 := patchRow victimId
    (fun p => { p with health := newHealth, isAlive := !isDead,
                       deaths := if isDead then victim.deaths + 1 else victim.deaths })
    db.players
  let players2 := if isDead
    then patchRow bullet.playerId (fun p => { p with kills := shooter.kills + 1 }) players1
    else players1
  let kills2 := if isDead
    then db.kills ++ [{ gameId := victim.gameId, killerId := bullet.playerId,
                        victimId := victimId, killerName := shooter.username,
                        victimName := victim.username, weapon := "rifle",
                        timestamp := now }]
    else db.kills
  (some { hit := true, damage := bullet.damage, killed := isDead },
   { players := players2, bullets := deleteRow bulletId db.bullets, kills := kills2 })

/-- The authoritative mutation `hitPlayer({bulletId, victimId})`: fetch the
bullet, the victim, and the shooter (the bullet's `playerId`); if any is
missing or the victim is not alive, return `null` without touching the
datastore; otherwise run `applyHit`. -/
def hitPlayer (db : DB) (now : ℚ) (bulletId victimId : String) :
    Option HitResult × DB :=
  match findVal bulletId db.bullets with
  | none => (none, db)
  | some bullet =>
    match findVal victimId db.players, findVal bullet.playerId db.players with
    | some victim, some shooter =>
      if victim.isAlive then applyHit db now bulletId victimId bullet victim shooter
      else (none, db)
    | some _, none => (none, db)
    | none, _ => (none, db)

/-- A stationary projectile hanging inside the arena, created at time 0. -/
def cBullet : Bullet :=
  { pos := { x := 0, y := 1, z := 0 }, velocity := { x := 0, y := 0, z := 0 },
    startTime := 0 }

/-- Two remote players standing at the same point as `cBullet`. -/
def twoPlayersAtOrigin : List (String × Vec3) :=
  [("p1", { x := 0, y := 1, z := 0 }), ("p2", { x := 0, y := 1, z := 0 })]

/-- An authoritative snapshot bullet used to exercise projectile seeding. -/
def snapBulletEx : SnapBullet :=
  { bid := "sb", startPosition := { x := 0, y := 1, z := 0 },
    direction := { x := 1, y := 0, z := 0 }, speed := 100, timestamp := 1234 }

/-- A remote player as listed in a snapshot. -/
def snapPEx : SnapPlayer :=
  { pid := "p1", username := "alice", position := { x := 1, y := 2, z := 3 },
    isAlive := true }

/-- A snapshot listing one remote player and no bullets. -/
def snapEx : Snapshot := { players := [snapPEx], bullets := [] }

/-- Engine scene state with no remote handles and no projectiles. -/
def engineEx : EngineState :=
  { player := standState, players := [], bullets := [] }

/-- Authority-side row for the shooting player. -/
def rowShooter : PlayerRow :=
  { gameId := "g", username := "alice", position := { x := 0, y := 1, z := 0 },
    rotation := { x := 0, y := 0 }, health := 100, maxHealth := 100,
    kills := 0, deaths := 0, isAlive := true, lastUpdate := 0 }

/-- Authority-side row for the victim, alive at 25 health. -/
def rowVictim : PlayerRow :=
  { rowShooter with username := "bob", health := 25 }

/-- Authority-side bullet row shot by player `A` with damage 25. -/
def bulletRowEx : BulletRow :=
  { gameId := "g", playerId := "A",
    startPosition := { x := 0, y := 1, z := 0 },
    direction := { x := 0, y := 0, z := -1 }, speed := 100, damage := 25,
    timestamp := 0 }

/-- A small authoritative datastore: shooter `A`, victim `B`, one bullet. -/
def dbEx : DB :=
  { players := [("A", rowShooter), ("B", rowVictim)],
    bullets := [("b1", bulletRowEx)], kills := [] }

theorem updatePlayer_player (p : PlayerState) (c : Controls) (w : ℚ × ℚ)
    (dt now l : ℚ) :
    (updatePlayer p c w dt now l).player =
      stepArena (stepGround (integratedState c w dt p)) := by
  unfold updatePlayer
  split <;> rfl

@[simp] theorem stepArena_height (p : PlayerState) :
    (stepArena p).height = p.height := rfl

@[simp] theorem stepArena_velocity (p : PlayerState) :
    (stepArena p).velocity = p.velocity := rfl

@[simp] theorem stepArena_isGrounded (p : PlayerState) :
    (stepArena p).isGrounded = p.isGrounded := rfl

@[simp] theorem stepGround_height (p : PlayerState) :
    (stepGround p).height = p.height := by
  unfold stepGround; split <;> rfl

@[simp] theorem stepIntegrate_height (dt : ℚ) (p : PlayerState) :
    (stepIntegrate dt p).height = p.height := rfl

@[simp] theorem stepIntegrate_velocity (dt : ℚ) (p : PlayerState) :
    (stepIntegrate dt p).velocity = p.velocity := rfl

@[simp] theorem stepIntegrate_isGrounded (dt : ℚ) (p : PlayerState) :
    (stepIntegrate dt p).isGrounded = p.isGrounded := rfl

@[simp] theorem stepGravity_height (dt : ℚ) (p : PlayerState) :
    (stepGravity dt p).height = p.height := by
  unfold stepGravity; split <;> rfl

@[simp] theorem stepGravity_isGrounded (dt : ℚ) (p : PlayerState) :
    (stepGravity dt p).isGrounded = p.isGrounded := by
  unfold stepGravity; split <;> rfl

@[simp] theorem stepJump_height (c : Controls) (p : PlayerState) :
    (stepJump c p).height = p.height := by
  unfold stepJump; split <;> rfl

@[simp] theorem stepMove_height (c : Controls) (w : ℚ × ℚ) (p : PlayerState) :
    (stepMove c w p).height = p.height := by
  unfold stepMove; split <;> rfl

@[simp] theorem stepMove_isGrounded (c : Controls) (w : ℚ × ℚ)
    (p : PlayerState) :
    (stepMove c w p).isGrounded = p.isGrounded := by
  unfold stepMove; split <;> rfl

@[simp] theorem stepMove_velocity_y (c : Controls) (w : ℚ × ℚ)
    (p : PlayerState) :
    (stepMove c w p).velocity.y = p.velocity.y := by
  unfold stepMove; split <;> rfl

@[simp] theorem stepHeight_isGrounded (c : Controls) (dt : ℚ)
    (p : PlayerState) :
    (stepHeight c dt p).isGrounded = p.isGrounded := rfl

@[simp] theorem stepHeight_velocity (c : Controls) (dt : ℚ)
    (p : PlayerState) :
    (stepHeight c dt p).velocity = p.velocity := rfl

theorem stepGround_no_clamp (p : PlayerState)
    (h : p.height / 2 < p.position.y) : stepGround p = p := by
  unfold stepGround
  exact if_neg (not_le.mpr h)

theorem stepGround_clamp (p : PlayerState)
    (h : p.position.y ≤ p.height / 2) :
    stepGround p =
      { p with position := { p.position with y := p.height / 2 },
               velocity := { p.velocity with y := 0 },
               isGrounded := true } := by
  unfold stepGround
  exact if_pos h

theorem inArena_stepArena (p : PlayerState) : inArena (stepArena p) := by
  refine ⟨le_max_left _ _, max_le (by norm_num) (min_le_left _ _),
          le_max_left _ _, max_le (by norm_num) (min_le_left _ _)⟩

/-- C1: every `updatePlayer` tick (any `dt > 0`, any control state, any
yaw-rotated move direction, any start state) ends with both horizontal
coordinates in `[-49, 49]`, because the arena clamp is the last positional
step of the tick; consequently any sequence of ticks started from an
in-bounds state keeps the horizontal position inside `[-49, 49]` forever. -/
theorem updatePlayer_arena_invariant :
    (∀ (p : PlayerState) (c : Controls) (w : ℚ × ℚ) (dt now l : ℚ),
        0 < dt → inArena (updatePlayer p c w dt now l).player) ∧
    (∀ (ins : List TickInput) (p : PlayerState) (l : ℚ),
        inArena p → inArena (runTicks ins (p, l)).1) := by
  constructor
  · intro p c w dt now l _
    rw [updatePlayer_player]
    exact inArena_stepArena _
  · intro ins
    induction ins with
    | nil => intro p l h; exact h
    | cons i rest ih =>
      intro p l h
      show inArena (runTicks rest (_, _)).1
      exact ih _ _ (by rw [updatePlayer_player]; exact inArena_stepArena _)

theorem updatePlayer_arena_invariant_witness :
    inArena (updatePlayer standState noCtrl (0, 0) 1 0 0).player ∧
    inArena (runTicks [] (standState, 0)).1 :=
  ⟨updatePlayer_arena_invariant.1 standState noCtrl (0, 0) 1 0 0 (by norm_num),
   updatePlayer_arena_invariant.2 [] standState 0 (by decide)⟩

/-- C8: from position (0, 0.9, 0), height 1.8, velocity (0, -1, 0), grounded,
no movement input, one tick of `dt = 0.1` integrates the vertical position to
0.8 ≤ 0.9 = height/2, after which the ground clamp snaps it to 0.9, resets
the vertical velocity to 0 and sets the grounded flag. -/
theorem c8_end_to_end_scenario :
    (integratedState noCtrl (0, 0) (1/10) c8State).position.y = 4/5 ∧
    (integratedState noCtrl (0, 0) (1/10) c8State).position.y ≤
      (integratedState noCtrl (0, 0) (1/10) c8State).height / 2 ∧
    (integratedState noCtrl (0, 0) (1/10) c8State).height / 2 = 9/10 ∧
    (updatePlayer c8State noCtrl (0, 0) (1/10) 0 0).player.position.y = 9/10 ∧
    (updatePlayer c8State noCtrl (0, 0) (1/10) 0 0).player.velocity.y = 0 ∧
    (updatePlayer c8State noCtrl (0, 0) (1/10) 0 0).player.isGrounded = true := by
  norm_num [updatePlayer, integratedState, stepHeight, stepMove, stepJump,
    stepGravity, stepIntegrate, stepGround, stepArena, lerp, rawDir, c8State,
    standState, noCtrl]

theorem updatePlayer_height (p : PlayerState) (c : Controls) (w : ℚ × ℚ)
    (dt now l : ℚ) :
    (updatePlayer p c w dt now l).player.height = (stepHeight c dt p).height := by
  rw [updatePlayer_player]
  simp [integratedState]

/-- C4: the elapsed time reaching the integration is NOT clamped to any fixed
maximum: `animate` passes `clock.getDelta()` through unmodified, and
`updatePlayer` consumes it raw, so a single tick changes the player state by
an amount unbounded in `dt` — here, for every bound `B` there is a `dt > 0`
(e.g. after a long tab suspension with crouch held) for which one tick drives
the crouch-height lerp below `-B`. -/
theorem no_delta_time_clamp :
    ∀ B : ℚ, ∃ dt : ℚ, 0 < dt ∧
      (updatePlayer standState crouchCtrl (0, 0) dt 0 0).player.height < -B := by
  have key : ∀ t : ℚ, (stepHeight crouchCtrl t standState).height = 9/5 - 6 * t := by
    intro t
    show lerp (9/5) (if crouchCtrl.crouch then (6:ℚ)/5 else 9/5) (t * 10) =
      9/5 - 6 * t
    rw [if_pos (show crouchCtrl.crouch = true from rfl)]
    unfold lerp
    ring
  intro B
  refine ⟨(|B| + 2) / 6, by positivity, ?_⟩
  rw [updatePlayer_height, key]
  have hB := le_abs_self B
  linarith

theorem stepJump_fire (c : Controls) (p : PlayerState) (hj : c.jump = true)
    (hg : p.isGrounded = true) :
    stepJump c p =
      { p with velocity := { p.velocity with y := 8 }, isGrounded := false } := by
  unfold stepJump
  rw [hj, hg]
  rfl

theorem stepJump_skip (c : Controls) (p : PlayerState)
    (h : (c.jump && p.isGrounded) = false) : stepJump c p = p := by
  unfold stepJump
  simp [h]

theorem integratedState_of_jump (p : PlayerState) (c : Controls) (w : ℚ × ℚ)
    (dt : ℚ) (hg : p.isGrounded = true) (hj : c.jump = true) :
    (integratedState c w dt p).velocity.y = 8 - 25 * dt ∧
    (integratedState c w dt p).isGrounded = false := by
  unfold integratedState
  rw [stepJump_fire c _ hj (by simp [hg])]
  constructor <;> simp [stepGravity]

theorem integratedState_isGrounded_of_airborne (p : PlayerState) (c : Controls)
    (w : ℚ × ℚ) (dt : ℚ) (hg : p.isGrounded = false) :
    (integratedState c w dt p).isGrounded = false := by
  unfold integratedState
  rw [stepJump_skip c _ (by simp [hg])]
  simp [hg]

/-- C3 counterexample: from the grounded rest state with jump intent and
`dt = 0.1`, the tick that processes the jump ends with vertical velocity
`8 - 25·0.1 = 5.5`, not exactly 8, because the gravity step runs in the same
tick right after the jump clears the grounded flag. -/
theorem jump_tick_velocity_not_eight :
    standState.isGrounded = true ∧ jumpCtrl.jump = true ∧
    (updatePlayer standState jumpCtrl (0, 0) (1/10) 0 0).player.velocity.y = 11/2 ∧
    (updatePlayer standState jumpCtrl (0, 0) (1/10) 0 0).player.velocity.y ≠ 8 := by
  norm_num [updatePlayer, integratedState, stepHeight, stepMove, stepJump,
    stepGravity, stepIntegrate, stepGround, stepArena, lerp, rawDir, standState,
    jumpCtrl, noCtrl]

/-- C3 amended: in a tick where the player is grounded and jump intent is
set, vertical velocity is set to 8 and the grounded flag cleared, after which
the same tick's gravity step applies, so the post-tick vertical velocity is
`8 - 25·dt` (and grounded is false) whenever the ground clamp does not fire
in that tick; and an airborne player becomes grounded in a tick exactly when
that tick's ground clamp fires (integrated vertical position at most half
the current height). -/
theorem jump_tick_spec :
    (∀ (p : PlayerState) (c : Controls) (w : ℚ × ℚ) (dt now l : ℚ),
        p.isGrounded = true → c.jump = true →
        (integratedState c w dt p).height / 2 <
          (integratedState c w dt p).position.y →
        (updatePlayer p c w dt now l).player.velocity.y = 8 - 25 * dt ∧
        (updatePlayer p c w dt now l).player.isGrounded = false) ∧
    (∀ (p : PlayerState) (c : Controls) (w : ℚ × ℚ) (dt now l : ℚ),
        p.isGrounded = false →
        ((updatePlayer p c w dt now l).player.isGrounded = true ↔
          (integratedState c w dt p).position.y ≤
            (integratedState c w dt p).height / 2)) := by
  constructor
  · intro p c w dt now l hg hj hclamp
    rw [updatePlayer_player, stepGround_no_clamp _ hclamp]
    have h := integratedState_of_jump p c w dt hg hj
    exact ⟨by simp [h.1], by simp [h.2]⟩
  · intro p c w dt now l hg
    rw [updatePlayer_player]
    have hmid := integratedState_isGrounded_of_airborne p c w dt hg
    by_cases hle : (integratedState c w dt p).position.y ≤
        (integratedState c w dt p).height / 2
    · rw [stepGround_clamp _ hle]
      simp [hle]
    · rw [stepGround_no_clamp _ (lt_of_not_le hle)]
      simp [hmid, hle]

theorem jump_tick_spec_witness :
    (updatePlayer standState jumpCtrl (0, 0) (1/10) 0 0).player.velocity.y =
      8 - 25 * (1/10) ∧
    (updatePlayer standState jumpCtrl (0, 0) (1/10) 0 0).player.isGrounded =
      false :=
  jump_tick_spec.1 standState jumpCtrl (0, 0) (1/10) 0 0 rfl rfl
    (by norm_num [integratedState, stepHeight, stepMove, stepJump, stepGravity,
      stepIntegrate, lerp, rawDir, standState, jumpCtrl, noCtrl])

/-- C7 counterexample: with exactly 50 ms of wall-clock time elapsed since
the throttle timestamp, the tick does NOT emit a position report — the
source's condition is strictly `now - lastUpdateTime > 50`, so "at least
50 ms elapsed" does not guarantee an emission. -/
theorem report_at_exactly_50ms_not_sent :
    (50 : ℚ) - 0 ≥ 50 ∧
    (updatePlayer standState noCtrl (0, 0) (1/60) 50 0).report = none := by
  constructor
  · norm_num
  · norm_num [updatePlayer]

/-- C7 amended: a tick emits a position report exactly when strictly more
than 50 ms of wall-clock time has elapsed since the throttle timestamp; an
emitted report carries the post-tick position and pitch/yaw and resets the
throttle timestamp to the current time, and a tick that does not emit leaves
the throttle timestamp unchanged (so consecutive reports are always more
than 50 ms apart). -/
theorem report_throttle_spec :
    ∀ (p : PlayerState) (c : Controls) (w : ℚ × ℚ) (dt now l : ℚ),
      ((updatePlayer p c w dt now l).report.isSome ↔ now - l > 50) ∧
      (now - l > 50 →
        (updatePlayer p c w dt now l).report =
          some { position := (updatePlayer p c w dt now l).player.position,
                 rotation := (updatePlayer p c w dt now l).player.rotation } ∧
        (updatePlayer p c w dt now l).lastUpdateTime = now) ∧
      (¬(now - l > 50) →
        (updatePlayer p c w dt now l).report = none ∧
        (updatePlayer p c w dt now l).lastUpdateTime = l) := by
  intro p c w dt now l
  unfold updatePlayer
  by_cases h : now - l > 50 <;> simp [h]

theorem report_throttle_spec_witness :
    (updatePlayer standState noCtrl (0, 0) (1/60) 100 0).lastUpdateTime = 100 :=
  ((report_throttle_spec standState noCtrl (0, 0) (1/60) 100 0).2.1
    (by norm_num)).2

theorem updateBullets_singleton_events (now dt : ℚ) (cpid : String)
    (players : List (String × Vec3)) (bid : String) (b : Bullet) :
    (updateBullets now dt cpid players [(bid, b)]).2 =
      bulletHits cpid players bid (moveBullet dt b) := by
  simp [updateBullets]

theorem mem_bulletHits (cpid : String) (players : List (String × Vec3))
    (bid bid' pid : String) (b : Bullet) :
    (bid', pid) ∈ bulletHits cpid players bid b ↔
      (bid' = bid ∧ pid ≠ cpid ∧
        ∃ pos, (pid, pos) ∈ players ∧ dist2 b.pos pos < 1/4) := by
  unfold bulletHits
  rw [List.mem_filterMap]
  constructor
  · rintro ⟨⟨qid, qpos⟩, hq, hfq⟩
    dsimp only at hfq
    by_cases h1 : qid = cpid
    · rw [if_pos h1] at hfq; cases hfq
    · rw [if_neg h1] at hfq
      by_cases h2 : dist2 b.pos qpos < 1/4
      · rw [if_pos h2] at hfq
        have h3 : bid = bid' ∧ qid = pid := by simpa using hfq
        obtain ⟨rfl, rfl⟩ := h3
        exact ⟨rfl, h1, qpos, hq, h2⟩
      · rw [if_neg h2] at hfq; cases hfq
  · rintro ⟨rfl, hne, pos, hmem, hdist⟩
    refine ⟨(pid, pos), hmem, ?_⟩
    dsimp only
    rw [if_neg hne, if_pos hdist]

/-- C2 counterexample: a projectile within the 0.5-unit threshold of two
remote players in the same tick emits TWO hit events, one per matching
player — the collision loop has no break — refuting "exactly one victim is
selected for that projectile in that tick". -/
theorem bullet_double_hit :
    (updateBullets 0 (1/60) "me" twoPlayersAtOrigin [("b", cBullet)]).2 =
      [("b", "p1"), ("b", "p2")] := by
  norm_num [updateBullets, bulletHits, moveBullet, dist2, cBullet,
    twoPlayersAtOrigin, List.filterMap_cons]
  decide

/-- C2 amended: in a tick, a projectile emits one hit event per remote
player (other than the current player) within the 0.5-unit threshold of its
advanced position — all matches fire, in player-map enumeration order — and
the projectile itself is removed from the map by the end of any tick in
which it hit at least one player. -/
theorem bullet_hits_all_matches :
    ∀ (now dt : ℚ) (cpid : String) (players : List (String × Vec3))
      (bid : String) (b : Bullet) (pid : String),
      ((bid, pid) ∈ (updateBullets now dt cpid players [(bid, b)]).2 ↔
        (pid ≠ cpid ∧ ∃ pos, (pid, pos) ∈ players ∧
          dist2 (moveBullet dt b).pos pos < 1/4)) ∧
      ((updateBullets now dt cpid players [(bid, b)]).2 ≠ [] →
        (updateBullets now dt cpid players [(bid, b)]).1 = []) := by
  intro now dt cpid players bid b pid
  constructor
  · rw [updateBullets_singleton_events, mem_bulletHits]
    simp
  · intro hne
    rw [updateBullets_singleton_events] at hne
    rcases hcase : bulletHits cpid players bid (moveBullet dt b) with _ | ⟨x, xs⟩
    · exact absurd hcase hne
    · simp [updateBullets, hcase]

theorem bullet_hits_all_matches_witness :
    (updateBullets 0 (1/60) "me" twoPlayersAtOrigin [("b", cBullet)]).1 = [] :=
  (bullet_hits_all_matches 0 (1/60) "me" twoPlayersAtOrigin "b" cBullet "p1").2
    (by
      norm_num [updateBullets, bulletHits, moveBullet, dist2, cBullet,
        twoPlayersAtOrigin, List.filterMap_cons]
      decide)

theorem findVal_append_self {β : Type} (k : String) (m : List (String × β))
    (v : β) (h : findVal k m = none) :
    findVal k (m ++ [(k, v)]) = some v := by
  induction m with
  | nil => simp [findVal]
  | cons e rest ih =>
    rw [List.cons_append]
    unfold findVal at h ⊢
    by_cases he : e.1 = k
    · rw [if_pos he] at h; cases h
    · rw [if_neg he] at h ⊢
      exact ih h

/-- C5 counterexample: at a tick where the projectile's age is exactly
5000 ms (age-clock 5 s), the projectile is NOT removed — the source removes
on `Date.now() - startTime > 5000`, strictly — so it is not removed "at or
before the simulated time at which its age reaches 5 seconds". -/
theorem bullet_kept_at_age_five_seconds :
    (5000 : ℚ) - cBullet.startTime = 5000 ∧
    (updateBullets 5000 (1/60) "me" [] [("b", cBullet)]).1 =
      [("b", moveBullet (1/60) cBullet)] := by
  constructor
  · norm_num [cBullet]
  · norm_num [updateBullets, bulletExpired, bulletOOB, bulletHits, moveBullet,
      cBullet, dist2]

/-- C5 amended: a projectile that stays in bounds and hits nobody in the
tick survives `updateBullets` exactly when its age (measured against its
`startTime`) is at most 5000 ms — so it is removed at the first tick at
which its age strictly exceeds 5 s, and never removed on the age criterion
while its age is less than (or equal to) 5 s; and a projectile seeded from
an authoritative snapshot record starts with `startTime` equal to the
authority's creation timestamp, not a reset client clock. -/
theorem bullet_age_expiry_spec :
    (∀ (now dt : ℚ) (cpid : String) (players : List (String × Vec3))
        (bid : String) (b : Bullet),
        bulletOOB (moveBullet dt b) = false →
        bulletHits cpid players bid (moveBullet dt b) = [] →
        (updateBullets now dt cpid players [(bid, b)]).1 =
          if now - b.startTime ≤ 5000 then [(bid, moveBullet dt b)] else []) ∧
    (∀ (m : List (String × Bullet)) (sb : SnapBullet),
        findVal sb.bid m = none →
        findVal sb.bid (applySnapBullet m sb) =
          some { pos := sb.startPosition,
                 velocity := { x := sb.direction.x * sb.speed,
                               y := sb.direction.y * sb.speed,
                               z := sb.direction.z * sb.speed },
                 startTime := sb.timestamp }) := by
  constructor
  · intro now dt cpid players bid b hoob hhits
    by_cases h : now - b.startTime ≤ 5000
    · rw [if_pos h]
      have hexp : bulletExpired now (moveBullet dt b) = false := by
        unfold bulletExpired moveBullet
        exact decide_eq_false (not_lt.mpr h)
      simp [updateBullets, hexp, hoob, hhits]
    · rw [if_neg h]
      have hexp : bulletExpired now (moveBullet dt b) = true := by
        unfold bulletExpired moveBullet
        exact decide_eq_true (not_le.mp h)
      simp [updateBullets, hexp]
  · intro m sb hnone
    unfold applySnapBullet
    simp only [hnone, Option.isSome_none]
    simp only [Bool.false_eq_true, if_false]
    exact findVal_append_self _ _ _ hnone

theorem bullet_age_expiry_spec_witness :
    (updateBullets 1000 (1/60) "me" [] [("b", cBullet)]).1 =
      (if (1000 : ℚ) - cBullet.startTime ≤ 5000
        then [("b", moveBullet (1/60) cBullet)] else []) ∧
    findVal "sb" (applySnapBullet [] snapBulletEx) =
      some { pos := snapBulletEx.startPosition,
             velocity := { x := snapBulletEx.direction.x * snapBulletEx.speed,
                           y := snapBulletEx.direction.y * snapBulletEx.speed,
                           z := snapBulletEx.direction.z * snapBulletEx.speed },
             startTime := snapBulletEx.timestamp } :=
  ⟨bullet_age_expiry_spec.1 1000 (1/60) "me" [] "b" cBullet
     (by norm_num [bulletOOB, moveBullet, cBullet]) rfl,
   bullet_age_expiry_spec.2 [] snapBulletEx rfl⟩

theorem countKey_update_map {β : Type} (k j : String)
    (g : String × β → β) (m : List (String × β)) :
    countKey k (m.map fun e => if e.1 = j then (e.1, g e) else e) =
      countKey k m := by
  induction m with
  | nil => rfl
  | cons e rest ih =>
    by_cases h : e.1 = j <;> simp [countKey, h, ih]

theorem countKey_append_single {β : Type} (k : String) (m : List (String × β))
    (e : String × β) :
    countKey k (m ++ [e]) = countKey k m + (if e.1 = k then 1 else 0) := by
  induction m with
  | nil => simp [countKey]
  | cons a rest ih =>
    rw [List.cons_append]
    simp only [countKey]
    rw [ih]
    omega

theorem findVal_eq_none_iff_countKey {β : Type} (k : String)
    (m : List (String × β)) :
    findVal k m = none ↔ countKey k m = 0 := by
  induction m with
  | nil => simp [findVal, countKey]
  | cons e rest ih =>
    by_cases h : e.1 = k <;> simp [findVal, countKey, h, ih]

theorem countKey_applySnapPlayer (cpid k : String)
    (m : List (String × RemoteView)) (sp : SnapPlayer) :
    countKey k (applySnapPlayer cpid m sp) =
      if sp.pid ≠ cpid ∧ sp.pid = k ∧ countKey k m = 0 then 1
      else countKey k m := by
  unfold applySnapPlayer
  by_cases h1 : sp.pid = cpid
  · simp [h1]
  · rw [if_neg h1, countKey_update_map]
    by_cases h2 : (findVal sp.pid m).isSome
    · rw [if_pos h2]
      have h0 : countKey sp.pid m ≠ 0 := by
        intro hz
        rw [← findVal_eq_none_iff_countKey] at hz
        simp [hz] at h2
      rw [if_neg]
      rintro ⟨-, rfl, hc⟩
      exact h0 hc
    · rw [if_neg h2]
      have hnone : findVal sp.pid m = none := by
        cases hx : findVal sp.pid m
        · rfl
        · simp [hx] at h2
      have h0 : countKey sp.pid m = 0 :=
        (findVal_eq_none_iff_countKey _ _).mp hnone
      rw [countKey_append_single]
      by_cases h3 : sp.pid = k
      · subst h3
        simp [h1, h0]
      · simp [h3, Ne.symm h3, h1]

theorem countKey_fold_ne_zero (cpid k : String) (snaps : List SnapPlayer) :
    ∀ m : List (String × RemoteView), countKey k m ≠ 0 →
      countKey k (snaps.foldl (applySnapPlayer cpid) m) = countKey k m := by
  induction snaps with
  | nil => intro m _; rfl
  | cons sp rest ih =>
    intro m h
    have hstep : countKey k (applySnapPlayer cpid m sp) = countKey k m := by
      rw [countKey_applySnapPlayer, if_neg]
      rintro ⟨-, -, hc⟩
      exact h hc
    rw [List.foldl_cons, ih _ (by rw [hstep]; exact h), hstep]

theorem countKey_fold_creates (cpid k : String) (snaps : List SnapPlayer) :
    ∀ m : List (String × RemoteView), k ≠ cpid → countKey k m = 0 →
      (∃ sp ∈ snaps, sp.pid = k) →
      countKey k (snaps.foldl (applySnapPlayer cpid) m) = 1 := by
  induction snaps with
  | nil =>
    rintro m _ _ ⟨sp, hsp, -⟩
    exact absurd hsp (List.not_mem_nil sp)
  | cons sp rest ih =>
    rintro m hk h0 ⟨sq, hsq, hq⟩
    rw [List.foldl_cons]
    by_cases hh : sp.pid = k
    · have hstep : countKey k (applySnapPlayer cpid m sp) = 1 := by
        rw [countKey_applySnapPlayer,
            if_pos ⟨by rw [hh]; exact hk, hh, h0⟩]
      rw [countKey_fold_ne_zero cpid k rest _ (by rw [hstep]; exact one_ne_zero),
          hstep]
    · have hstep : countKey k (applySnapPlayer cpid m sp) = countKey k m := by
        rw [countKey_applySnapPlayer, if_neg]
        rintro ⟨-, hc, -⟩
        exact hh hc
      rcases List.mem_cons.mp hsq with rfl | hmem
      · exact absurd hq hh
      · exact ih _ hk (by rw [hstep]; exact h0) ⟨sq, hmem, hq⟩

theorem countKey_prune_of_listed (snap : Snapshot) (k : String)
    (m : List (String × RemoteView))
    (h : (snap.players.any fun sp => sp.pid == k) = true) :
    countKey k (pruneDisconnected snap m) = countKey k m := by
  unfold pruneDisconnected
  induction m with
  | nil => rfl
  | cons e rest ih =>
    rw [List.filter_cons]
    by_cases he : e.1 = k
    · have hp : (snap.players.any fun sp => sp.pid == e.1) = true := by
        rw [he]; exact h
      rw [if_pos hp]
      simp only [countKey]
      rw [ih]
    · by_cases hp : (snap.players.any fun sp => sp.pid == e.1) = true
      · rw [if_pos hp]
        simp only [countKey]
        rw [ih]
      · rw [if_neg hp]
        simp only [countKey, if_neg he]
        rw [ih]
        omega

theorem countKey_prune_of_unlisted (snap : Snapshot) (k : String)
    (m : List (String × RemoteView))
    (h : (snap.players.any fun sp => sp.pid == k) = false) :
    countKey k (pruneDisconnected snap m) = 0 := by
  unfold pruneDisconnected
  induction m with
  | nil => rfl
  | cons e rest ih =>
    rw [List.filter_cons]
    by_cases he : e.1 = k
    · have hp : ¬((snap.players.any fun sp => sp.pid == e.1) = true) := by
        rw [he, h]
        exact Bool.false_ne_true
      rw [if_neg hp]
      exact ih
    · by_cases hp : (snap.players.any fun sp => sp.pid == e.1) = true
      · rw [if_pos hp]
        simp only [countKey, if_neg he]
        rw [ih]
      · rw [if_neg hp]
        exact ih

/-- C6: reconciling a snapshot never touches the local player's own
predicted state; a remote player id listed in the snapshot (and different
from the current player id) that has no visual handle yet ends the
reconciliation with exactly one handle; and an id absent from the snapshot's
player list ends it with no handle at all (its handle, if any, is removed). -/
theorem updateGameState_spec :
    ∀ (cpid : String) (snap : Snapshot) (st : EngineState) (pid : String),
      (updateGameState cpid (some snap) st).player = st.player ∧
      (pid ≠ cpid → (snap.players.any fun sp => sp.pid == pid) = true →
        countKey pid st.players = 0 →
        countKey pid (updateGameState cpid (some snap) st).players = 1) ∧
      ((snap.players.any fun sp => sp.pid == pid) = false →
        countKey pid (updateGameState cpid (some snap) st).players = 0) := by
  intro cpid snap st pid
  refine ⟨rfl, ?_, ?_⟩
  · intro hne hlisted h0
    show countKey pid
      (pruneDisconnected snap (snap.players.foldl (applySnapPlayer cpid) st.players)) = 1
    rw [countKey_prune_of_listed _ _ _ hlisted]
    apply countKey_fold_creates _ _ _ _ hne h0
    rcases List.any_eq_true.mp hlisted with ⟨sp, hmem, hbeq⟩
    exact ⟨sp, hmem, by simpa using hbeq⟩
  · intro h
    show countKey pid
      (pruneDisconnected snap (snap.players.foldl (applySnapPlayer cpid) st.players)) = 0
    exact countKey_prune_of_unlisted _ _ _ h

theorem updateGameState_spec_witness :
    countKey "p1" (updateGameState "me" (some snapEx) engineEx).players = 1 ∧
    countKey "zz" (updateGameState "me" (some snapEx) engineEx).players = 0 :=
  ⟨(updateGameState_spec "me" snapEx engineEx "p1").2.1 (by decide) (by decide)
    rfl,
   (updateGameState_spec "me" snapEx engineEx "zz").2.2 (by decide)⟩

theorem findVal_cons {β : Type} (k : String) (e : String × β)
    (l : List (String × β)) :
    findVal k (e :: l) = if e.1 = k then some e.2 else findVal k l := rfl

theorem patchRow_cons {β : Type} (k : String) (f : β → β) (e : String × β)
    (l : List (String × β)) :
    patchRow k f (e :: l) =
      (if e.1 = k then (e.1, f e.2) else e) :: patchRow k f l := rfl

theorem findVal_patchRow_self {β : Type} (k : String) (f : β → β)
    (m : List (String × β)) :
    findVal k (patchRow k f m) = (findVal k m).map f := by
  induction m with
  | nil => rfl
  | cons e rest ih =>
    rw [patchRow_cons]
    by_cases he : e.1 = k
    · rw [if_pos he, findVal_cons, findVal_cons]
      dsimp only
      rw [if_pos he, if_pos he]
      rfl
    · rw [if_neg he, findVal_cons, findVal_cons, if_neg he, if_neg he]
      exact ih

theorem findVal_patchRow_other {β : Type} (k j : String) (hkj : k ≠ j)
    (f : β → β) (m : List (String × β)) :
    findVal k (patchRow j f m) = findVal k m := by
  induction m with
  | nil => rfl
  | cons e rest ih =>
    rw [patchRow_cons]
    by_cases he : e.1 = j
    · rw [if_pos he, findVal_cons, findVal_cons]
      dsimp only
      have hek : ¬(e.1 = k) := by
        rw [he]
        exact fun hh => hkj hh.symm
      rw [if_neg hek, if_neg hek]
      exact ih
    · rw [if_neg he, findVal_cons, findVal_cons]
      by_cases hek : e.1 = k
      · rw [if_pos hek, if_pos hek]
      · rw [if_neg hek, if_neg hek]
        exact ih

theorem findVal_deleteRow_self {β : Type} (k : String)
    (m : List (String × β)) :
    findVal k (deleteRow k m) = none := by
  unfold deleteRow
  induction m with
  | nil => rfl
  | cons e rest ih =>
    rw [List.filter_cons]
    by_cases he : e.1 = k
    · have hc : ¬((!(e.1 == k)) = true) := by simp [he]
      rw [if_neg hc]
      exact ih
    · have hc : (!(e.1 == k)) = true := by simp [he]
      rw [if_pos hc]
      simp only [findVal, if_neg he]
      exact ih

theorem hitPlayer_invalid (db : DB) (now : ℚ) (bid vid : String)
    (h : hitValid db bid vid = false) :
    hitPlayer db now bid vid = (none, db) := by
  unfold hitPlayer
  rcases hfb : findVal bid db.bullets with _ | bullet
  · simp [hfb]
  · rcases hfv : findVal vid db.players with _ | victim
    · simp [hfb, hfv]
    · rcases hfs : findVal bullet.playerId db.players with _ | shooter
      · simp [hfb, hfv, hfs]
      · have ha : victim.isAlive = false := by
          unfold hitValid at h
          simp only [hfb, hfv, hfs] at h
          exact h
        simp [hfb, hfv, hfs, ha]

theorem hitPlayer_eq_applyHit (db : DB) (now : ℚ) (bid vid : String)
    (bullet : BulletRow) (victim shooter : PlayerRow)
    (hb : findVal bid db.bullets = some bullet)
    (hv : findVal vid db.players = some victim)
    (hs : findVal bullet.playerId db.players = some shooter)
    (ha : victim.isAlive = true) :
    hitPlayer db now bid vid = applyHit db now bid vid bullet victim shooter := by
  unfold hitPlayer
  simp [hb, hv, hs, ha]

/-- C9: `hitPlayer` returns null and leaves the datastore unchanged whenever
the bullet id is unknown, the victim id is unknown, the shooter row is
missing, or the victim is not alive; otherwise it returns
`{hit := true, damage := bullet.damage, killed}`, deletes the bullet row,
and sets the victim's health to `max 0 (health - damage)`. -/
theorem hitPlayer_spec :
    (∀ (db : DB) (now : ℚ) (bid vid : String),
        hitValid db bid vid = false → hitPlayer db now bid vid = (none, db)) ∧
    (∀ (db : DB) (now : ℚ) (bid vid : String) (bullet : BulletRow)
        (victim shooter : PlayerRow),
        findVal bid db.bullets = some bullet →
        findVal vid db.players = some victim →
        findVal bullet.playerId db.players = some shooter →
        victim.isAlive = true →
        ∃ r : HitResult,
          (hitPlayer db now bid vid).1 = some r ∧ r.hit = true ∧
          r.damage = bullet.damage ∧
          findVal bid (hitPlayer db now bid vid).2.bullets = none ∧
          (findVal vid (hitPlayer db now bid vid).2.players).map
            PlayerRow.health = some (max 0 (victim.health - bullet.damage))) := by
  constructor
  · exact hitPlayer_invalid
  · intro db now bid vid bullet victim shooter hb hv hs ha
    rw [hitPlayer_eq_applyHit db now bid vid bullet victim shooter hb hv hs ha]
    simp only [applyHit]
    by_cases hd : max 0 (victim.health - bullet.damage) ≤ 0
    · rw [decide_eq_true hd]
      simp only [if_true]
      refine ⟨_, rfl, rfl, rfl, findVal_deleteRow_self _ _, ?_⟩
      by_cases hbp : bullet.playerId = vid
      · rw [hbp, findVal_patchRow_self, findVal_patchRow_self, hv]
        rfl
      · rw [findVal_patchRow_other vid bullet.playerId
              (fun hh => hbp hh.symm), findVal_patchRow_self, hv]
        rfl
    · rw [decide_eq_false hd]
      simp only [Bool.false_eq_true, if_false]
      refine ⟨_, rfl, rfl, rfl, findVal_deleteRow_self _ _, ?_⟩
      rw [findVal_patchRow_self, hv]
      rfl

theorem hitPlayer_spec_witness :
    hitPlayer dbEx 7 "zz" "B" = (none, dbEx) ∧
    ∃ r : HitResult, (hitPlayer dbEx 7 "b1" "B").1 = some r ∧ r.hit = true ∧
      r.damage = bulletRowEx.damage ∧
      findVal "b1" (hitPlayer dbEx 7 "b1" "B").2.bullets = none ∧
      (findVal "B" (hitPlayer dbEx 7 "b1" "B").2.players).map PlayerRow.health =
        some (max 0 (rowVictim.health - bulletRowEx.damage)) :=
  ⟨hitPlayer_spec.1 dbEx 7 "zz" "B" (by decide),
   hitPlayer_spec.2 dbEx 7 "b1" "B" bulletRowEx rowVictim rowShooter
     (by decide) (by decide) (by decide) (by decide)⟩

/-- C10: after a valid `hitPlayer`, the victim's stored health is
`max 0 (previous - damage)`, hence never negative; the result reports
`killed = true` exactly when that new health is 0; and exactly in that case
the shooter's kill count is incremented by one and a kill row (killer,
victim, weapon "rifle") is appended. -/
theorem hitPlayer_health_and_kill_spec :
    ∀ (db : DB) (now : ℚ) (bid vid : String) (bullet : BulletRow)
      (victim shooter : PlayerRow),
      findVal bid db.bullets = some bullet →
      findVal vid db.players = some victim →
      findVal bullet.playerId db.players = some shooter →
      victim.isAlive = true →
      ∃ (r : HitResult) (v2 : PlayerRow),
        (hitPlayer db now bid vid).1 = some r ∧
        findVal vid (hitPlayer db now bid vid).2.players = some v2 ∧
        v2.health = max 0 (victim.health - bullet.damage) ∧
        0 ≤ v2.health ∧
        (r.killed = true ↔ v2.health = 0) ∧
        (findVal bullet.playerId (hitPlayer db now bid vid).2.players).map
          PlayerRow.kills =
          some (if r.killed then shooter.kills + 1 else shooter.kills) ∧
        (hitPlayer db now bid vid).2.kills =
          (if r.killed then
             db.kills ++
               [{ gameId := victim.gameId, killerId := bullet.playerId,
                  victimId := vid, killerName := shooter.username,
                  victimName := victim.username, weapon := "rifle",
                  timestamp := now }]
           else db.kills) := by
  intro db now bid vid bullet victim shooter hb hv hs ha
  rw [hitPlayer_eq_applyHit db now bid vid bullet victim shooter hb hv hs ha]
  simp only [applyHit]
  by_cases hd : max 0 (victim.health - bullet.damage) ≤ 0
  · have hzero : max 0 (victim.health - bullet.damage) = 0 :=
      le_antisymm hd (le_max_left 0 _)
    rw [decide_eq_true hd]
    simp only [if_true]
    refine ⟨⟨true, bullet.damage, true⟩, ?_⟩
    by_cases hbp : bullet.playerId = vid
    · rw [hbp, findVal_patchRow_self, findVal_patchRow_self, hv]
      exact ⟨_, rfl, rfl, rfl, le_max_left 0 _, by simp [hzero], rfl, rfl⟩
    · rw [findVal_patchRow_other vid bullet.playerId (fun hh => hbp hh.symm),
          findVal_patchRow_self, hv, findVal_patchRow_self,
          findVal_patchRow_other bullet.playerId vid hbp, hs]
      exact ⟨_, rfl, rfl, rfl, le_max_left 0 _, by simp [hzero], rfl, rfl⟩
  · have hpos : 0 < max 0 (victim.health - bullet.damage) := lt_of_not_le hd
    rw [decide_eq_false hd]
    simp only [Bool.false_eq_true, if_false]
    refine ⟨⟨true, bullet.damage, false⟩, ?_⟩
    by_cases hbp : bullet.playerId = vid
    · have hsv : shooter = victim := by
        rw [hbp, hv] at hs
        exact (Option.some.inj hs).symm
      rw [hbp, findVal_patchRow_self, hv, hsv]
      exact ⟨_, rfl, rfl, rfl, le_max_left 0 _, by simp [ne_of_gt hpos],
             rfl, rfl⟩
    · rw [findVal_patchRow_self, hv, findVal_patchRow_other bullet.playerId vid
            hbp, hs]
      exact ⟨_, rfl, rfl, rfl, le_max_left 0 _, by simp [ne_of_gt hpos],
             rfl, rfl⟩

theorem hitPlayer_health_and_kill_spec_witness :
    ∃ (r : HitResult) (v2 : PlayerRow),
      (hitPlayer dbEx 3 "b1" "B").1 = some r ∧
      findVal "B" (hitPlayer dbEx 3 "b1" "B").2.players = some v2 ∧
      v2.health = max 0 (rowVictim.health - bulletRowEx.damage) ∧
      0 ≤ v2.health ∧
      (r.killed = true ↔ v2.health = 0) ∧
      (findVal "A" (hitPlayer dbEx 3 "b1" "B").2.players).map PlayerRow.kills =
        some (if r.killed then rowShooter.kills + 1 else rowShooter.kills) ∧
      (hitPlayer dbEx 3 "b1" "B").2.kills =
        (if r.killed then
           dbEx.kills ++
             [{ gameId := rowVictim.gameId, killerId := "A",
                victimId := "B", killerName := rowShooter.username,
                victimName := rowVictim.username, weapon := "rifle",
                timestamp := 3 }]
         else dbEx.kills) :=
  hitPlayer_health_and_kill_spec dbEx 3 "b1" "B" bulletRowEx rowVictim
    rowShooter (by decide) (by decide) (by decide) (by decide)

end FpsGame


